import Mathlib

/-!
Shallow embedding of the `error_check` library (src/errcheck.h, src/errcheck.c)
and its rollback example (examples/rollback_cleanup.c).

Machine integers are modelled as `Nat` with explicit `% 2^w` where the C code
truncates (err_t is uint8_t, inner_code is uint32_t); a C `int` operation
result is modelled as `Int`.  The process-wide mutable state (the global
failure context, the injection flag, the NVRAM device) is threaded explicitly
as a state record; the list `nvramWrites` records every durable write the
logging stub performs, so "the write happens at most once" is a statement
about its length.
-/

namespace ErrCheck

/-- ERR_FAILURE ((err_t)0xFF) from errcheck.h. -/
def ERR_FAILURE : Nat := 0xFF

/-- ERR_SUCCESS ((err_t)0x00) from errcheck.h. -/
def ERR_SUCCESS : Nat := 0x00

/-- User error codes from examples/user_app_errors.h. -/
def APP_ERR_NONE : Nat := ERR_SUCCESS

def ERR_POWER : Nat := 1

def ERR_SENSOR : Nat := 2

def ERR_RADIO : Nat := 3

/-- failure_context_t from errcheck.h: code (err_t, uint8), inner_code
(uint32), file (__FILE__, NULL at start-up hence Option), line (__LINE__),
logged_to_nvram. -/
structure failure_context_t where
  code : Nat
  inner_code : Nat
  file : Option String
  line : Nat
  logged_to_nvram : Bool
  deriving Repr, DecidableEq

/-- The explicit process state: the global failure context `g_error_context`,
the runtime-injection flag `g_inject_error_flag` (uint8; meaningful only in
builds with ERRCHECK_ENABLE_RUNTIME_INJECTION), and the sequence of contexts
the NVRAM stub has durably written, in order. -/
structure ErrState where
  ctx : failure_context_t
  inject : Nat
  nvramWrites : List failure_context_t
  deriving Repr, DecidableEq

/-- The initializer of g_error_context in errcheck.c (code = ERR_SUCCESS,
inner_code = 0, file = NULL, line = 0, logged_to_nvram = false) together with
g_inject_error_flag = 0 and an empty NVRAM. -/
def errcheck_init : ErrState :=
  { ctx := { code := ERR_SUCCESS, inner_code := 0, file := none, line := 0,
             logged_to_nvram := false },
    inject := 0,
    nvramWrites := [] }

/-- errcheck_log_to_nvram from errcheck.c: return early if the context is
already logged, return early if the code is ERR_SUCCESS, otherwise perform
the durable write and set logged_to_nvram. -/
def errcheck_log_to_nvram (s : ErrState) : ErrState :=
  if s.ctx.logged_to_nvram then s
  else if s.ctx.code = ERR_SUCCESS then s
  else
    { s with
      ctx := { s.ctx with logged_to_nvram := true },
      nvramWrites := s.nvramWrites ++ [s.ctx] }

/-- RETURN_ERR_AND_CONTEXT(err_flag, inner_val) from errcheck.h: store the
context fields (the assignment to the uint8 field `code` truncates mod 256,
the assignment to the uint32 field `inner_code` truncates mod 2^32), call
errcheck_log_to_nvram, and return ERR_FAILURE.  The returned `Option Nat` is
`some v` when the enclosing routine returns v immediately. -/
def RETURN_ERR_AND_CONTEXT (err_flag inner_val : Nat) (file : String)
    (line : Nat) (s : ErrState) : ErrState × Option Nat :=
  let s1 := { s with
    ctx := { code := err_flag % 256, inner_code := inner_val % 2 ^ 32,
             file := some file, line := line,
             logged_to_nvram := s.ctx.logged_to_nvram } }
  (errcheck_log_to_nvram s1, some ERR_FAILURE)

/-- CHECK(call, err_flag) from errcheck.h, base build (no runtime injection):
`result` is the already-evaluated int value of `call`; on result == 0 it
invokes RETURN_ERR_AND_CONTEXT(err_flag, 0); otherwise it is a no-op and the
routine continues (`none`). -/
def CHECK (result : Int) (err_flag : Nat) (file : String) (line : Nat)
    (s : ErrState) : ErrState × Option Nat :=
  if result = 0 then RETURN_ERR_AND_CONTEXT err_flag 0 file line s
  else (s, none)

/-- GOTO_CHECK(call, err_flag, label) from errcheck.h, base build: on
result == 0 it stores the context fields (no logging call) and jumps to the
cleanup label (`true`); otherwise it is a no-op (`false`). -/
def GOTO_CHECK (result : Int) (err_flag : Nat) (file : String) (line : Nat)
    (s : ErrState) : ErrState × Bool :=
  if result = 0 then
    ({ s with
       ctx := { code := err_flag % 256, inner_code := 0,
                file := some file, line := line,
                logged_to_nvram := s.ctx.logged_to_nvram } }, true)
  else (s, false)

/-- The uint32 cast `(uint32_t)__result` applied to a C int, modelled on
`Int` by reduction modulo 2^32. -/
def toUInt32 (result : Int) : Nat := (result % 2 ^ 32).toNat

/-- CHECK(call, err_flag) from errcheck.h when
ERRCHECK_ENABLE_RUNTIME_INJECTION is defined: the branch fires when
result == 0 or g_inject_error_flag == err_flag; it then clears the flag and
invokes RETURN_ERR_AND_CONTEXT(err_flag, (uint32_t)result). -/
def CHECKrt (result : Int) (err_flag : Nat) (file : String) (line : Nat)
    (s : ErrState) : ErrState × Option Nat :=
  if result = 0 ∨ s.inject = err_flag then
    RETURN_ERR_AND_CONTEXT err_flag (toUInt32 result) file line
      { s with inject := 0 }
  else (s, none)

/-- GOTO_CHECK(call, err_flag, label) from errcheck.h when
ERRCHECK_ENABLE_RUNTIME_INJECTION is defined: the branch fires when
result == 0 or g_inject_error_flag == err_flag; it then stores the context
fields with inner_code = (uint32_t)result, clears the flag and jumps. -/
def GOTO_CHECKrt (result : Int) (err_flag : Nat) (file : String) (line : Nat)
    (s : ErrState) : ErrState × Bool :=
  if result = 0 ∨ s.inject = err_flag then
    ({ s with
       ctx := { code := err_flag % 256, inner_code := toUInt32 result,
                file := some file, line := line,
                logged_to_nvram := s.ctx.logged_to_nvram },
       inject := 0 }, true)
  else (s, false)

/-- Observable driver events of examples/rollback_cleanup.c: each mock driver
call prints a line; the trace records them in execution order. -/
inductive Ev where
  | powerOn
  | powerOff
  | sensorInit
  | sensorDeinit
  | radioBegin
  | radioDeinit
  deriving Repr, DecidableEq

/-- power_on() from rollback_cleanup.c: returns 1 (OK). -/
def power_on (t : List Ev) : Int × List Ev := (1, t ++ [Ev.powerOn])

/-- power_off() from rollback_cleanup.c: returns 1. -/
def power_off (t : List Ev) : Int × List Ev := (1, t ++ [Ev.powerOff])

/-- sensor_init() from rollback_cleanup.c: returns 0 (intentional failure). -/
def sensor_init (t : List Ev) : Int × List Ev := (0, t ++ [Ev.sensorInit])

/-- sensor_deinit() from rollback_cleanup.c: returns 1. -/
def sensor_deinit (t : List Ev) : Int × List Ev := (1, t ++ [Ev.sensorDeinit])

/-- radio_begin() from rollback_cleanup.c: returns 1. -/
def radio_begin (t : List Ev) : Int × List Ev := (1, t ++ [Ev.radioBegin])

/-- radio_deinit() from rollback_cleanup.c: returns 1. -/
def radio_deinit (t : List Ev) : Int × List Ev := (1, t ++ [Ev.radioDeinit])

/-- The `exit` label of device_init_rollback: the single exit point; it calls
errcheck_log_to_nvram exactly when final_result == ERR_FAILURE, then returns
final_result. -/
def rollback_exit (s : ErrState) (t : List Ev) (final_result : Nat) :
    ErrState × List Ev × Nat :=
  if final_result = ERR_FAILURE then (errcheck_log_to_nvram s, t, final_result)
  else (s, t, final_result)

/-- The `cleanup_power` label: power_off(), then fall through to `exit`. -/
def cleanup_power (s : ErrState) (t : List Ev) (final_result : Nat) :
    ErrState × List Ev × Nat :=
  rollback_exit s (power_off t).2 final_result

/-- The `cleanup_sensor` label: sensor_deinit(), then fall through to
`cleanup_power`. -/
def cleanup_sensor (s : ErrState) (t : List Ev) (final_result : Nat) :
    ErrState × List Ev × Nat :=
  cleanup_power s (sensor_deinit t).2 final_result

/-- The `cleanup_radio` label: radio_deinit(), then fall through to
`cleanup_sensor`. -/
def cleanup_radio (s : ErrState) (t : List Ev) (final_result : Nat) :
    ErrState × List Ev × Nat :=
  cleanup_sensor s (radio_deinit t).2 final_result

/-- device_init_rollback() from examples/rollback_cleanup.c (base build):
final_result starts as ERR_FAILURE; three GOTO_CHECKs at lines 32, 35, 38
guard power_on, sensor_init, radio_begin; on full success final_result is
set to APP_ERR_NONE and control goes to `exit`; each failing check jumps to
its cleanup label, and the labels fall through in reverse order down to the
single exit point.  Returns the final state, the driver-event trace, and the
routine result. -/
def device_init_rollback (s : ErrState) : ErrState × List Ev × Nat :=
  let final_result := ERR_FAILURE
  let (r1, t) := power_on []
  let (s, j1) := GOTO_CHECK r1 ERR_POWER "rollback_cleanup.c" 32 s
  if j1 then cleanup_power s t final_result
  else
    let (r2, t) := sensor_init t
    let (s, j2) := GOTO_CHECK r2 ERR_SENSOR "rollback_cleanup.c" 35 s
    if j2 then cleanup_sensor s t final_result
    else
      let (r3, t) := radio_begin t
      let (s, j3) := GOTO_CHECK r3 ERR_RADIO "rollback_cleanup.c" 38 s
      if j3 then cleanup_radio s t final_result
      else rollback_exit s t APP_ERR_NONE

/-- A core operation on the shared state: a guarded CHECK (with the int
result its call produced and its call-site arguments), a rollback
GOTO_CHECK, or a direct errcheck_log_to_nvram call. -/
inductive Op where
  | check (result : Int) (err_flag : Nat) (file : String) (line : Nat)
  | gotoCheck (result : Int) (err_flag : Nat) (file : String) (line : Nat)
  | logNvram
  deriving Repr

/-- One core operation in the base build (no runtime injection). -/
def stepBase (s : ErrState) : Op → ErrState
  | .check r e f l => (CHECK r e f l s).1
  | .gotoCheck r e f l => (GOTO_CHECK r e f l s).1
  | .logNvram => errcheck_log_to_nvram s

/-- One core operation in the runtime-injection build. -/
def stepRt (s : ErrState) : Op → ErrState
  | .check r e f l => (CHECKrt r e f l s).1
  | .gotoCheck r e f l => (GOTO_CHECKrt r e f l s).1
  | .logNvram => errcheck_log_to_nvram s

/-- A sequence of core operations in the base build. -/
def runBase (s : ErrState) (ops : List Op) : ErrState := ops.foldl stepBase s

/-- A sequence of core operations in the runtime-injection build. -/
def runRt (s : ErrState) (ops : List Op) : ErrState := ops.foldl stepRt s

/-- The errorKind argument an operation carries is a genuine failure kind:
a representable uint8 value distinct from ERR_SUCCESS.  A bare logging call
carries none. -/
def goodOp : Op → Prop
  | .check _ e _ _ => e ≠ ERR_SUCCESS ∧ e < 256
  | .gotoCheck _ e _ _ => e ≠ ERR_SUCCESS ∧ e < 256
  | .logNvram => True

/-! Helper lemmas about the persistence gate. -/

theorem log_no_op_of_logged (s : ErrState) (h : s.ctx.logged_to_nvram = true) :
    errcheck_log_to_nvram s = s := by
  unfold errcheck_log_to_nvram
  simp [h]

theorem log_no_op_of_success (s : ErrState) (h : s.ctx.code = ERR_SUCCESS) :
    errcheck_log_to_nvram s = s := by
  unfold errcheck_log_to_nvram
  by_cases hl : s.ctx.logged_to_nvram <;> simp [hl, h]

theorem log_write (s : ErrState) (hl : s.ctx.logged_to_nvram = false)
    (hc : s.ctx.code ≠ ERR_SUCCESS) :
    errcheck_log_to_nvram s =
      { s with ctx := { s.ctx with logged_to_nvram := true },
               nvramWrites := s.nvramWrites ++ [s.ctx] } := by
  unfold errcheck_log_to_nvram
  simp [hl, hc]

theorem log_logged_mono (s : ErrState) (h : s.ctx.logged_to_nvram = true) :
    (errcheck_log_to_nvram s).ctx.logged_to_nvram = true := by
  rw [log_no_op_of_logged s h]; exact h

theorem log_preserves_fields (s : ErrState) :
    (errcheck_log_to_nvram s).ctx.code = s.ctx.code ∧
    (errcheck_log_to_nvram s).ctx.inner_code = s.ctx.inner_code ∧
    (errcheck_log_to_nvram s).ctx.file = s.ctx.file ∧
    (errcheck_log_to_nvram s).ctx.line = s.ctx.line ∧
    (errcheck_log_to_nvram s).inject = s.inject := by
  unfold errcheck_log_to_nvram
  split_ifs <;> simp

/-- A concrete state holding a captured, not-yet-persisted sensor failure,
used to instantiate the universally quantified theorems. -/
def sFailUnlogged : ErrState :=
  { errcheck_init with
    ctx := { code := ERR_SENSOR, inner_code := 0, file := some "basic_usage.c",
             line := 20, logged_to_nvram := false } }

/-- Claim C1: errcheck_log_to_nvram is idempotent: a no-op when the context
is already persisted, a no-op when the code is Success, otherwise it performs
the durable write and sets the persisted flag; calling it twice with no
context change between the calls leaves the same final state as calling it
once, and across the two calls the underlying write is performed at most
once. -/
theorem C1_log_to_nvram_idempotent (s : ErrState) :
    (s.ctx.logged_to_nvram = true → errcheck_log_to_nvram s = s) ∧
    (s.ctx.code = ERR_SUCCESS → errcheck_log_to_nvram s = s) ∧
    (s.ctx.logged_to_nvram = false → s.ctx.code ≠ ERR_SUCCESS →
      (errcheck_log_to_nvram s).ctx.logged_to_nvram = true ∧
      (errcheck_log_to_nvram s).nvramWrites = s.nvramWrites ++ [s.ctx]) ∧
    errcheck_log_to_nvram (errcheck_log_to_nvram s) = errcheck_log_to_nvram s ∧
    (errcheck_log_to_nvram (errcheck_log_to_nvram s)).nvramWrites.length ≤
      s.nvramWrites.length + 1 := by
  have hidem : errcheck_log_to_nvram (errcheck_log_to_nvram s) =
      errcheck_log_to_nvram s := by
    by_cases hl : s.ctx.logged_to_nvram
    · simp only [log_no_op_of_logged s hl]
    · by_cases hc : s.ctx.code = ERR_SUCCESS
      · simp only [log_no_op_of_success s hc]
      · rw [log_write s (by simpa using hl) hc]
        apply log_no_op_of_logged
        rfl
  refine ⟨log_no_op_of_logged s, log_no_op_of_success s, ?_, hidem, ?_⟩
  · intro hl hc
    rw [log_write s hl hc]
    exact ⟨rfl, rfl⟩
  · rw [hidem]
    by_cases hl : s.ctx.logged_to_nvram
    · rw [log_no_op_of_logged s hl]; omega
    · by_cases hc : s.ctx.code = ERR_SUCCESS
      · rw [log_no_op_of_success s hc]; omega
      · rw [log_write s (by simpa using hl) hc]
        simp

/-- Claim C1 witness: at a context holding an unpersisted sensor failure the
gate sets the persisted flag and appends exactly one durable write. -/
theorem C1_witness :
    (errcheck_log_to_nvram sFailUnlogged).ctx.logged_to_nvram = true ∧
    (errcheck_log_to_nvram sFailUnlogged).nvramWrites =
      sFailUnlogged.nvramWrites ++ [sFailUnlogged.ctx] :=
  (C1_log_to_nvram_idempotent sFailUnlogged).2.2.1 rfl (by decide)

theorem return_err_and_context_spec (e i : Nat) (f : String) (l : Nat)
    (s : ErrState) :
    (RETURN_ERR_AND_CONTEXT e i f l s).2 = some ERR_FAILURE ∧
    (RETURN_ERR_AND_CONTEXT e i f l s).1.ctx.code = e % 256 ∧
    (RETURN_ERR_AND_CONTEXT e i f l s).1.ctx.inner_code = i % 2 ^ 32 ∧
    (RETURN_ERR_AND_CONTEXT e i f l s).1.ctx.file = some f ∧
    (RETURN_ERR_AND_CONTEXT e i f l s).1.ctx.line = l ∧
    (RETURN_ERR_AND_CONTEXT e i f l s).1.inject = s.inject := by
  unfold RETURN_ERR_AND_CONTEXT
  refine ⟨rfl, ?_, ?_, ?_, ?_, ?_⟩
  · rw [(log_preserves_fields _).1]
  · rw [(log_preserves_fields _).2.1]
  · rw [(log_preserves_fields _).2.2.1]
  · rw [(log_preserves_fields _).2.2.2.1]
  · rw [(log_preserves_fields _).2.2.2.2]

/-- Claim C2: a failing CHECK (result zero) sets code to the errorKind,
inner_code to 0, the location to the call site, routes the state through the
persistence gate, and makes the enclosing routine return ERR_FAILURE = 0xFF
regardless of which errorKind was supplied. -/
theorem C2_check_failure (result : Int) (e : Nat) (f : String) (l : Nat)
    (s : ErrState) (hr : result = 0) (he : e < 256) :
    (CHECK result e f l s).2 = some ERR_FAILURE ∧
    ERR_FAILURE = 0xFF ∧
    (CHECK result e f l s).1.ctx.code = e ∧
    (CHECK result e f l s).1.ctx.inner_code = 0 ∧
    (CHECK result e f l s).1.ctx.file = some f ∧
    (CHECK result e f l s).1.ctx.line = l ∧
    (CHECK result e f l s).1 =
      errcheck_log_to_nvram
        { s with ctx := { code := e, inner_code := 0, file := some f,
                          line := l,
                          logged_to_nvram := s.ctx.logged_to_nvram } } := by
  subst hr
  have hmod : e % 256 = e := Nat.mod_eq_of_lt he
  have hck : CHECK 0 e f l s = RETURN_ERR_AND_CONTEXT e 0 f l s := rfl
  rw [hck]
  have hspec := return_err_and_context_spec e 0 f l s
  refine ⟨hspec.1, rfl, ?_, ?_, hspec.2.2.2.1, hspec.2.2.2.2.1, ?_⟩
  · rw [hspec.2.1, hmod]
  · rw [hspec.2.2.1]; decide
  · simp [RETURN_ERR_AND_CONTEXT, hmod]

/-- Claim C2 witness: a concrete failing CHECK with errorKind ERR_SENSOR on
the initial state returns ERR_FAILURE and captures the context. -/
theorem C2_witness :
    (CHECK 0 ERR_SENSOR "basic_usage.c" 20 errcheck_init).2 =
        some ERR_FAILURE ∧
    ERR_FAILURE = 0xFF ∧
    (CHECK 0 ERR_SENSOR "basic_usage.c" 20 errcheck_init).1.ctx.code =
        ERR_SENSOR ∧
    (CHECK 0 ERR_SENSOR "basic_usage.c" 20 errcheck_init).1.ctx.inner_code =
        0 ∧
    (CHECK 0 ERR_SENSOR "basic_usage.c" 20 errcheck_init).1.ctx.file =
        some "basic_usage.c" ∧
    (CHECK 0 ERR_SENSOR "basic_usage.c" 20 errcheck_init).1.ctx.line = 20 ∧
    (CHECK 0 ERR_SENSOR "basic_usage.c" 20 errcheck_init).1 =
      errcheck_log_to_nvram
        { errcheck_init with
          ctx := { code := ERR_SENSOR, inner_code := 0,
                   file := some "basic_usage.c", line := 20,
                   logged_to_nvram := errcheck_init.ctx.logged_to_nvram } } :=
  C2_check_failure 0 ERR_SENSOR "basic_usage.c" 20 errcheck_init rfl
    (by decide)

/-- Claim C3: in the rollback scenario of device_init_rollback (power
succeeds, sensor fails), radio is never acquired and never released, sensor
and power are released in that order (strict reverse order of acquisition,
and only already-acquired resources), the NVRAM write happens exactly once
and records code = ERR_SENSOR at the sensor check's call site (line 35), and
the routine returns ERR_FAILURE. -/
theorem C3_rollback_scenario :
    (device_init_rollback errcheck_init).2.1 =
      [Ev.powerOn, Ev.sensorInit, Ev.sensorDeinit, Ev.powerOff] ∧
    Ev.radioBegin ∉ (device_init_rollback errcheck_init).2.1 ∧
    Ev.radioDeinit ∉ (device_init_rollback errcheck_init).2.1 ∧
    (device_init_rollback errcheck_init).1.nvramWrites =
      [{ code := ERR_SENSOR, inner_code := 0,
         file := some "rollback_cleanup.c", line := 35,
         logged_to_nvram := false }] ∧
    (device_init_rollback errcheck_init).1.ctx.code = ERR_SENSOR ∧
    (device_init_rollback errcheck_init).1.ctx.file =
      some "rollback_cleanup.c" ∧
    (device_init_rollback errcheck_init).1.ctx.line = 35 ∧
    (device_init_rollback errcheck_init).2.2 = ERR_FAILURE :=
  ⟨rfl, by decide, by decide, rfl, rfl, rfl, rfl, rfl⟩

/-- Claim C5: a failing GOTO_CHECK (result zero, base build) sets the
context fields (code = errorKind, inner_code = 0, location = call site) but
leaves logged_to_nvram and the NVRAM write log untouched, and transfers
control to the cleanup label instead of returning; a successful GOTO_CHECK
changes nothing and control continues normally. -/
theorem C5_goto_check_no_persist (r : Int) (e : Nat) (f : String) (l : Nat)
    (s : ErrState) (he : e < 256) :
    (r = 0 →
      GOTO_CHECK r e f l s =
        ({ s with ctx := { code := e, inner_code := 0, file := some f,
                           line := l,
                           logged_to_nvram := s.ctx.logged_to_nvram } },
         true) ∧
      (GOTO_CHECK r e f l s).1.ctx.logged_to_nvram =
        s.ctx.logged_to_nvram ∧
      (GOTO_CHECK r e f l s).1.nvramWrites = s.nvramWrites) ∧
    (r ≠ 0 → GOTO_CHECK r e f l s = (s, false)) := by
  have hmod : e % 256 = e := Nat.mod_eq_of_lt he
  constructor
  · intro hr
    subst hr
    refine ⟨by simp [GOTO_CHECK, hmod], ?_, ?_⟩ <;> rfl
  · intro hr
    simp [GOTO_CHECK, hr]

/-- Claim C5 witness: a concrete failing GOTO_CHECK with errorKind
ERR_SENSOR captures the context, does not write NVRAM, and jumps. -/
theorem C5_witness :
    (GOTO_CHECK 0 ERR_SENSOR "rollback_cleanup.c" 35 errcheck_init =
      ({ errcheck_init with
         ctx := { code := ERR_SENSOR, inner_code := 0,
                  file := some "rollback_cleanup.c", line := 35,
                  logged_to_nvram := errcheck_init.ctx.logged_to_nvram } },
       true) ∧
    (GOTO_CHECK 0 ERR_SENSOR "rollback_cleanup.c" 35
        errcheck_init).1.ctx.logged_to_nvram =
      errcheck_init.ctx.logged_to_nvram ∧
    (GOTO_CHECK 0 ERR_SENSOR "rollback_cleanup.c" 35
        errcheck_init).1.nvramWrites = errcheck_init.nvramWrites) ∧
    GOTO_CHECK 1 ERR_SENSOR "rollback_cleanup.c" 35 errcheck_init =
      (errcheck_init, false) :=
  ⟨(C5_goto_check_no_persist 0 ERR_SENSOR "rollback_cleanup.c" 35
      errcheck_init (by decide)).1 rfl,
   (C5_goto_check_no_persist 1 ERR_SENSOR "rollback_cleanup.c" 35
      errcheck_init (by decide)).2 (by decide)⟩

/-- Claim C8: a successful guarded check changes nothing: in the base build
a nonzero result makes CHECK and GOTO_CHECK leave the state exactly as it
was and continue; in the runtime-injection build the same holds provided the
pending request also differs from the check's errorKind. -/
theorem C8_success_no_state_change (r : Int) (e : Nat) (f : String)
    (l : Nat) (s : ErrState) (hr : r ≠ 0) :
    CHECK r e f l s = (s, none) ∧
    GOTO_CHECK r e f l s = (s, false) ∧
    (s.inject ≠ e →
      CHECKrt r e f l s = (s, none) ∧
      GOTO_CHECKrt r e f l s = (s, false)) := by
  refine ⟨by simp [CHECK, hr], by simp [GOTO_CHECK, hr], ?_⟩
  intro hi
  constructor
  · simp [CHECKrt, hr, hi]
  · simp [GOTO_CHECKrt, hr, hi]

/-- Claim C8 witness: a concrete successful check (result 1, errorKind
ERR_RADIO, empty injection slot would not match ERR_RADIO) leaves the
initial state untouched in both builds. -/
theorem C8_witness :
    CHECK 1 ERR_RADIO "fault_injection_rt.c" 31 errcheck_init =
      (errcheck_init, none) ∧
    GOTO_CHECK 1 ERR_RADIO "fault_injection_rt.c" 31 errcheck_init =
      (errcheck_init, false) ∧
    (errcheck_init.inject ≠ ERR_RADIO →
      CHECKrt 1 ERR_RADIO "fault_injection_rt.c" 31 errcheck_init =
        (errcheck_init, none) ∧
      GOTO_CHECKrt 1 ERR_RADIO "fault_injection_rt.c" 31 errcheck_init =
        (errcheck_init, false)) :=
  C8_success_no_state_change 1 ERR_RADIO "fault_injection_rt.c" 31
    errcheck_init (by decide)

/-- Claim C9: in the runtime-injection build the empty injection slot is the
numeral 0, which equals the reserved ERR_SUCCESS error kind; hence a guarded
check invoked with errorKind 0 signals failure and overwrites the failure
context even when its real outcome succeeds and no injection request was
ever set. -/
theorem C9_zero_errorkind_always_fires (r : Int) (f : String) (l : Nat)
    (s : ErrState) (hs : s.inject = 0) (hr : r ≠ 0) :
    ERR_SUCCESS = 0 ∧
    (CHECKrt r ERR_SUCCESS f l s).2 = some ERR_FAILURE ∧
    (CHECKrt r ERR_SUCCESS f l s).1.ctx.code = ERR_SUCCESS ∧
    (CHECKrt r ERR_SUCCESS f l s).1.ctx.file = some f ∧
    (CHECKrt r ERR_SUCCESS f l s).1.ctx.line = l ∧
    (GOTO_CHECKrt r ERR_SUCCESS f l s).2 = true := by
  have hcond : r = 0 ∨ s.inject = ERR_SUCCESS := Or.inr hs
  have hck : CHECKrt r ERR_SUCCESS f l s =
      RETURN_ERR_AND_CONTEXT ERR_SUCCESS (toUInt32 r) f l
        { s with inject := 0 } := by
    unfold CHECKrt
    rw [if_pos hcond]
  have hspec := return_err_and_context_spec ERR_SUCCESS (toUInt32 r) f l
    { s with inject := 0 }
  refine ⟨rfl, ?_, ?_, ?_, ?_, ?_⟩
  · rw [hck]; exact hspec.1
  · rw [hck, hspec.2.1]; decide
  · rw [hck]; exact hspec.2.2.2.1
  · rw [hck]; exact hspec.2.2.2.2.1
  · unfold GOTO_CHECKrt
    rw [if_pos hcond]

/-- Claim C9 witness: with the slot never set, a check with errorKind 0 and
a succeeding real outcome (result 1) still signals failure and overwrites
the context in both runtime-injection check variants. -/
theorem C9_witness :
    ERR_SUCCESS = 0 ∧
    (CHECKrt 1 ERR_SUCCESS "fault_injection_rt.c" 31 errcheck_init).2 =
      some ERR_FAILURE ∧
    (CHECKrt 1 ERR_SUCCESS "fault_injection_rt.c" 31
        errcheck_init).1.ctx.code = ERR_SUCCESS ∧
    (CHECKrt 1 ERR_SUCCESS "fault_injection_rt.c" 31
        errcheck_init).1.ctx.file = some "fault_injection_rt.c" ∧
    (CHECKrt 1 ERR_SUCCESS "fault_injection_rt.c" 31
        errcheck_init).1.ctx.line = 31 ∧
    (GOTO_CHECKrt 1 ERR_SUCCESS "fault_injection_rt.c" 31
        errcheck_init).2 = true :=
  C9_zero_errorkind_always_fires 1 "fault_injection_rt.c" 31 errcheck_init
    rfl (by decide)

theorem checkrt_no_fire (r : Int) (e : Nat) (f : String) (l : Nat)
    (s : ErrState) (hr : r ≠ 0) (hne : s.inject ≠ e) :
    CHECKrt r e f l s = (s, none) := by
  unfold CHECKrt
  rw [if_neg]
  push_neg
  exact ⟨hr, hne⟩

theorem gotocheckrt_no_fire (r : Int) (e : Nat) (f : String) (l : Nat)
    (s : ErrState) (hr : r ≠ 0) (hne : s.inject ≠ e) :
    GOTO_CHECKrt r e f l s = (s, false) := by
  unfold GOTO_CHECKrt
  rw [if_neg]
  push_neg
  exact ⟨hr, hne⟩

/-- A concrete state whose pending injection request is ERR_RADIO, as set by
main() in examples/fault_injection_rt.c. -/
def sInjectRadio : ErrState := { errcheck_init with inject := ERR_RADIO }

/-- A concrete state whose pending injection request is ERR_SENSOR. -/
def sInjectSensor : ErrState := { errcheck_init with inject := ERR_SENSOR }

/-- Claim C4 counterexample: with the pending slot at its empty value 0 and
never set, a check with errorKind 0 and a succeeding real outcome (result 1)
fires via the slot comparison; the slot is "cleared" (still 0), yet a second
identical check with a succeeding real outcome (result 1) and no new request
set signals failure again — refuting "a second identical check afterward can
only fail via its real outcome, never via injection again". -/
theorem C4_counterexample :
    errcheck_init.inject = 0 ∧
    (CHECKrt 1 0 "fault_injection_rt.c" 31 errcheck_init).2 =
      some ERR_FAILURE ∧
    (CHECKrt 1 0 "fault_injection_rt.c" 31 errcheck_init).1.inject = 0 ∧
    (CHECKrt 1 0 "fault_injection_rt.c" 31
        (CHECKrt 1 0 "fault_injection_rt.c" 31 errcheck_init).1).2 =
      some ERR_FAILURE := by
  refine ⟨rfl, rfl, rfl, rfl⟩

/-- Claim C4 (amended): for every errorKind distinct from 0 (the empty-slot
value), a runtime-injection check signals failure iff the real outcome
failed or the pending request equals the errorKind; when injection is the
trigger, inner_code receives the real outcome's raw value and the request is
cleared, so a second identical check with a succeeding real outcome and no
new request does not fire. -/
theorem C4_injection_single_shot (r1 r2 : Int) (e : Nat) (f1 f2 : String)
    (l1 l2 : Nat) (s : ErrState) (he : e ≠ 0) :
    ((CHECKrt r1 e f1 l1 s).2 = some ERR_FAILURE ↔
      (r1 = 0 ∨ s.inject = e)) ∧
    ((GOTO_CHECKrt r1 e f1 l1 s).2 = true ↔ (r1 = 0 ∨ s.inject = e)) ∧
    (r1 ≠ 0 → s.inject = e →
      (CHECKrt r1 e f1 l1 s).1.ctx.inner_code = toUInt32 r1 % 2 ^ 32 ∧
      (CHECKrt r1 e f1 l1 s).1.inject = 0 ∧
      (r2 ≠ 0 →
        CHECKrt r2 e f2 l2 (CHECKrt r1 e f1 l1 s).1 =
          ((CHECKrt r1 e f1 l1 s).1, none))) := by
  refine ⟨?_, ?_, ?_⟩
  · unfold CHECKrt
    split_ifs with hcond
    · simp [RETURN_ERR_AND_CONTEXT, hcond]
    · simp [hcond]
  · unfold GOTO_CHECKrt
    split_ifs with hcond
    · simp [hcond]
    · simp [hcond]
  · intro hr1 hi
    have hcond : r1 = 0 ∨ s.inject = e := Or.inr hi
    have hck : CHECKrt r1 e f1 l1 s =
        RETURN_ERR_AND_CONTEXT e (toUInt32 r1) f1 l1
          { s with inject := 0 } := by
      unfold CHECKrt
      rw [if_pos hcond]
    have hspec := return_err_and_context_spec e (toUInt32 r1) f1 l1
      { s with inject := 0 }
    have hinj : (CHECKrt r1 e f1 l1 s).1.inject = 0 := by
      rw [hck]
      exact hspec.2.2.2.2.2
    refine ⟨by rw [hck]; exact hspec.2.2.1, hinj, ?_⟩
    intro hr2
    exact checkrt_no_fire r2 e f2 l2 _ hr2
      (by rw [hinj]; exact fun hne => he hne.symm)

/-- Claim C4 witness: a concrete injected failure with errorKind ERR_RADIO
(slot preloaded to ERR_RADIO, real outcome 1): the check fires, records
inner_code 1, clears the slot, and the identical follow-up check with real
outcome 1 passes. -/
theorem C4_witness :
    ((CHECKrt 1 ERR_RADIO "fault_injection_rt.c" 31 sInjectRadio).2 =
        some ERR_FAILURE ↔
      ((1 : Int) = 0 ∨ sInjectRadio.inject = ERR_RADIO)) ∧
    ((GOTO_CHECKrt 1 ERR_RADIO "fault_injection_rt.c" 31 sInjectRadio).2 =
        true ↔ ((1 : Int) = 0 ∨ sInjectRadio.inject = ERR_RADIO)) ∧
    (CHECKrt 1 ERR_RADIO "fault_injection_rt.c" 31
        sInjectRadio).1.ctx.inner_code = toUInt32 1 % 2 ^ 32 ∧
    (CHECKrt 1 ERR_RADIO "fault_injection_rt.c" 31 sInjectRadio).1.inject =
      0 ∧
    CHECKrt 1 ERR_RADIO "fault_injection_rt.c" 31
        (CHECKrt 1 ERR_RADIO "fault_injection_rt.c" 31 sInjectRadio).1 =
      ((CHECKrt 1 ERR_RADIO "fault_injection_rt.c" 31 sInjectRadio).1,
       none) := by
  have h := C4_injection_single_shot 1 1 ERR_RADIO "fault_injection_rt.c"
    "fault_injection_rt.c" 31 31 sInjectRadio (by decide)
  have h3 := h.2.2 (by decide) rfl
  exact ⟨h.1, h.2.1, h3.1, h3.2.1, h3.2.2 (by decide)⟩

/-- Claim C6 counterexample: with a pending request ERR_SENSOR and a check
whose errorKind is ERR_RADIO (different from the request) but whose real
outcome fails (result 0), the check clears the slot to 0 — the slot is not
left unchanged by a non-matching check. -/
theorem C6_counterexample :
    sInjectSensor.inject = ERR_SENSOR ∧
    ERR_RADIO ≠ ERR_SENSOR ∧
    (CHECKrt 0 ERR_RADIO "fault_injection_rt.c" 31 sInjectSensor).1.inject =
      0 ∧
    (GOTO_CHECKrt 0 ERR_RADIO "fault_injection_rt.c" 31
        sInjectSensor).1.inject = 0 ∧
    ERR_SENSOR ≠ 0 := by
  refine ⟨rfl, by decide, rfl, rfl, by decide⟩

/-- Claim C6 (amended): a guarded check whose errorKind differs from the
current pending request AND whose real outcome succeeds leaves the pending
request slot unchanged; a check that signals failure clears the slot to 0
regardless of whether the request matched. -/
theorem C6_nonmatching_check_frame (r : Int) (e : Nat) (f : String)
    (l : Nat) (s : ErrState) (hne : s.inject ≠ e) (hr : r ≠ 0) :
    (CHECKrt r e f l s).1.inject = s.inject ∧
    (GOTO_CHECKrt r e f l s).1.inject = s.inject ∧
    (CHECKrt r e f l s).1 = s ∧
    (GOTO_CHECKrt r e f l s).1 = s := by
  have h1 : CHECKrt r e f l s = (s, none) := by
    unfold CHECKrt
    rw [if_neg]
    push_neg
    exact ⟨hr, hne⟩
  have h2 : GOTO_CHECKrt r e f l s = (s, false) := by
    unfold GOTO_CHECKrt
    rw [if_neg]
    push_neg
    exact ⟨hr, hne⟩
  rw [h1, h2]
  exact ⟨rfl, rfl, rfl, rfl⟩

/-- Claim C6 witness: a check with errorKind ERR_RADIO, pending request
ERR_SENSOR and succeeding real outcome leaves the slot (and the whole
state) unchanged. -/
theorem C6_witness :
    (CHECKrt 1 ERR_RADIO "fault_injection_rt.c" 31 sInjectSensor).1.inject =
      sInjectSensor.inject ∧
    (GOTO_CHECKrt 1 ERR_RADIO "fault_injection_rt.c" 31
        sInjectSensor).1.inject = sInjectSensor.inject ∧
    (CHECKrt 1 ERR_RADIO "fault_injection_rt.c" 31 sInjectSensor).1 =
      sInjectSensor ∧
    (GOTO_CHECKrt 1 ERR_RADIO "fault_injection_rt.c" 31 sInjectSensor).1 =
      sInjectSensor :=
  C6_nonmatching_check_frame 1 ERR_RADIO "fault_injection_rt.c" 31
    sInjectSensor (by decide) (by decide)

/-! Monotonicity of the persisted flag under single core operations, then
under arbitrary operation sequences. -/

theorem stepBase_logged_mono (s : ErrState) (op : Op)
    (h : s.ctx.logged_to_nvram = true) :
    (stepBase s op).ctx.logged_to_nvram = true := by
  cases op with
  | check r e f l =>
    simp only [stepBase, CHECK]
    split_ifs with hr
    · exact log_logged_mono _ h
    · exact h
  | gotoCheck r e f l =>
    simp only [stepBase, GOTO_CHECK]
    split_ifs with hr
    · exact h
    · exact h
  | logNvram => exact log_logged_mono s h

theorem stepRt_logged_mono (s : ErrState) (op : Op)
    (h : s.ctx.logged_to_nvram = true) :
    (stepRt s op).ctx.logged_to_nvram = true := by
  cases op with
  | check r e f l =>
    simp only [stepRt, CHECKrt]
    split_ifs with hr
    · exact log_logged_mono _ h
    · exact h
  | gotoCheck r e f l =>
    simp only [stepRt, GOTO_CHECKrt]
    split_ifs with hr
    · exact h
    · exact h
  | logNvram => exact log_logged_mono s h

theorem runBase_logged_mono (ops : List Op) : ∀ s : ErrState,
    s.ctx.logged_to_nvram = true →
    (runBase s ops).ctx.logged_to_nvram = true := by
  induction ops with
  | nil => intro s h; exact h
  | cons op rest ih =>
    intro s h
    exact ih (stepBase s op) (stepBase_logged_mono s op h)

theorem runRt_logged_mono (ops : List Op) : ∀ s : ErrState,
    s.ctx.logged_to_nvram = true →
    (runRt s ops).ctx.logged_to_nvram = true := by
  induction ops with
  | nil => intro s h; exact h
  | cons op rest ih =>
    intro s h
    exact ih (stepRt s op) (stepRt_logged_mono s op h)

/-- Claim C7: logged_to_nvram is monotonic: for every sequence of core
operations (guarded checks, rollback checks and persistence-gate calls, in
either build), once it is true no operation on the persistence path ever
sets it back to false. -/
theorem C7_persisted_monotonic (ops : List Op) (s : ErrState)
    (h : s.ctx.logged_to_nvram = true) :
    (runBase s ops).ctx.logged_to_nvram = true ∧
    (runRt s ops).ctx.logged_to_nvram = true :=
  ⟨runBase_logged_mono ops s h, runRt_logged_mono ops s h⟩

/-- A concrete already-persisted failure state. -/
def sFailLogged : ErrState :=
  { errcheck_init with
    ctx := { code := ERR_SENSOR, inner_code := 0,
             file := some "rollback_cleanup.c", line := 35,
             logged_to_nvram := true } }

/-- A concrete operation sequence exercising all three core operations. -/
def opsW : List Op :=
  [Op.check 0 ERR_POWER "basic_usage.c" 10,
   Op.gotoCheck 0 ERR_SENSOR "rollback_cleanup.c" 35,
   Op.logNvram]

/-- Claim C7 witness: running a concrete mixed operation sequence from an
already-persisted failure state keeps the flag true in both builds. -/
theorem C7_witness :
    (runBase sFailLogged opsW).ctx.logged_to_nvram = true ∧
    (runRt sFailLogged opsW).ctx.logged_to_nvram = true :=
  C7_persisted_monotonic opsW sFailLogged rfl

/-! The invariant "persisted implies a real failure code", preserved by every
core operation whose errorKind is a genuine failure kind. -/

theorem log_code_inv (s : ErrState)
    (h : s.ctx.logged_to_nvram = true → s.ctx.code ≠ ERR_SUCCESS) :
    (errcheck_log_to_nvram s).ctx.logged_to_nvram = true →
      (errcheck_log_to_nvram s).ctx.code ≠ ERR_SUCCESS := by
  by_cases hl : s.ctx.logged_to_nvram
  · rw [log_no_op_of_logged s hl]; exact h
  · by_cases hc : s.ctx.code = ERR_SUCCESS
    · rw [log_no_op_of_success s hc]; exact h
    · rw [log_write s (by simpa using hl) hc]
      intro _
      exact hc

theorem stepBase_code_inv (s : ErrState) (op : Op) (hop : goodOp op)
    (h : s.ctx.logged_to_nvram = true → s.ctx.code ≠ ERR_SUCCESS) :
    (stepBase s op).ctx.logged_to_nvram = true →
      (stepBase s op).ctx.code ≠ ERR_SUCCESS := by
  cases op with
  | check r e f l =>
    obtain ⟨he0, he256⟩ := hop
    simp only [stepBase, CHECK]
    split_ifs with hr
    · intro _
      rw [(return_err_and_context_spec e 0 f l s).2.1,
        Nat.mod_eq_of_lt he256]
      exact he0
    · exact h
  | gotoCheck r e f l =>
    obtain ⟨he0, he256⟩ := hop
    simp only [stepBase, GOTO_CHECK]
    split_ifs with hr
    · intro _
      show e % 256 ≠ ERR_SUCCESS
      rw [Nat.mod_eq_of_lt he256]
      exact he0
    · exact h
  | logNvram => exact log_code_inv s h

theorem stepRt_code_inv (s : ErrState) (op : Op) (hop : goodOp op)
    (h : s.ctx.logged_to_nvram = true → s.ctx.code ≠ ERR_SUCCESS) :
    (stepRt s op).ctx.logged_to_nvram = true →
      (stepRt s op).ctx.code ≠ ERR_SUCCESS := by
  cases op with
  | check r e f l =>
    obtain ⟨he0, he256⟩ := hop
    simp only [stepRt, CHECKrt]
    split_ifs with hr
    · intro _
      rw [(return_err_and_context_spec e (toUInt32 r) f l _).2.1,
        Nat.mod_eq_of_lt he256]
      exact he0
    · exact h
  | gotoCheck r e f l =>
    obtain ⟨he0, he256⟩ := hop
    simp only [stepRt, GOTO_CHECKrt]
    split_ifs with hr
    · intro _
      show e % 256 ≠ ERR_SUCCESS
      rw [Nat.mod_eq_of_lt he256]
      exact he0
    · exact h
  | logNvram => exact log_code_inv s h

theorem runBase_code_inv (ops : List Op) : ∀ s : ErrState,
    (∀ op ∈ ops, goodOp op) →
    (s.ctx.logged_to_nvram = true → s.ctx.code ≠ ERR_SUCCESS) →
    ((runBase s ops).ctx.logged_to_nvram = true →
      (runBase s ops).ctx.code ≠ ERR_SUCCESS) := by
  induction ops with
  | nil => intro s _ h; exact h
  | cons op rest ih =>
    intro s hops h
    exact ih (stepBase s op) (fun o ho => hops o (List.mem_cons_of_mem _ ho))
      (stepBase_code_inv s op (hops op (List.mem_cons_self _ _)) h)

theorem runRt_code_inv (ops : List Op) : ∀ s : ErrState,
    (∀ op ∈ ops, goodOp op) →
    (s.ctx.logged_to_nvram = true → s.ctx.code ≠ ERR_SUCCESS) →
    ((runRt s ops).ctx.logged_to_nvram = true →
      (runRt s ops).ctx.code ≠ ERR_SUCCESS) := by
  induction ops with
  | nil => intro s _ h; exact h
  | cons op rest ih =>
    intro s hops h
    exact ih (stepRt s op) (fun o ho => hops o (List.mem_cons_of_mem _ ho))
      (stepRt_code_inv s op (hops op (List.mem_cons_self _ _)) h)

/-- Claim C10: starting from the initial context (code = ERR_SUCCESS,
persisted false) and for every sequence of core operations whose errorKind
arguments are representable uint8 values distinct from ERR_SUCCESS, whenever
logged_to_nvram is true the recorded code is not ERR_SUCCESS — a persisted
context always records a real failure, in both builds. -/
theorem C10_persisted_implies_real_failure (ops : List Op)
    (h : ∀ op ∈ ops, goodOp op) :
    ((runBase errcheck_init ops).ctx.logged_to_nvram = true →
      (runBase errcheck_init ops).ctx.code ≠ ERR_SUCCESS) ∧
    ((runRt errcheck_init ops).ctx.logged_to_nvram = true →
      (runRt errcheck_init ops).ctx.code ≠ ERR_SUCCESS) :=
  ⟨runBase_code_inv ops errcheck_init h
      (fun hl => absurd hl (by decide)),
   runRt_code_inv ops errcheck_init h
      (fun hl => absurd hl (by decide))⟩

/-- Claim C10 witness: the concrete mixed sequence opsW (a failing CHECK, a
failing GOTO_CHECK, a logging call, all with non-Success error kinds) keeps
the invariant from the initial state in both builds. -/
theorem C10_witness :
    ((runBase errcheck_init opsW).ctx.logged_to_nvram = true →
      (runBase errcheck_init opsW).ctx.code ≠ ERR_SUCCESS) ∧
    ((runRt errcheck_init opsW).ctx.logged_to_nvram = true →
      (runRt errcheck_init opsW).ctx.code ≠ ERR_SUCCESS) :=
  C10_persisted_implies_real_failure opsW (by
    intro op hop
    rcases List.mem_cons.mp hop with h1 | h1
    · subst h1; exact ⟨by decide, by decide⟩
    · rcases List.mem_cons.mp h1 with h2 | h2
      · subst h2; exact ⟨by decide, by decide⟩
      · rcases List.mem_cons.mp h2 with h3 | h3
        · subst h3; exact trivial
        · cases h3)

end ErrCheck
